import Mathlib

/-!
Shallow embedding of the pagination and record-extraction core of
`src/cnki.py` (a CNKI search-result scraper).  The pure Python library
helpers the source relies on (`urllib.parse.unquote`,
`datetime.date.fromisoformat`, `re.search`, `str.split`, `math.ceil`,
`int` on a numeral) are modelled faithfully below; the Selenium driver is
modelled as an explicit environment recording the rows present on each
physical results page and the outcome of each "next page" activation.
-/

/-- A calendar date as produced by Python `datetime.date`. -/
structure Date where
  year : Nat
  month : Nat
  day : Nat
deriving DecidableEq, Repr

/-- Gregorian leap-year test, as in Python `calendar.isleap`. -/
def isLeapYear (y : Nat) : Bool :=
  y % 4 == 0 && (y % 100 != 0 || y % 400 == 0)

/-- Number of days in a month, as validated by the `datetime.date` constructor. -/
def daysInMonth (y m : Nat) : Nat :=
  if m = 2 then (if isLeapYear y then 29 else 28)
  else if m = 4 ∨ m = 6 ∨ m = 9 ∨ m = 11 then 30
  else 31

/-- Numeric value of an ASCII digit character. -/
def digitVal (c : Char) : Nat := c.toNat - 48

/-- Python `datetime.date.fromisoformat` (as of the Python 3.7-3.10 line used
by the source): accepts exactly the ten-character form `YYYY-MM-DD` and then
validates the calendar date (`MINYEAR = 1`, month 1-12, day within the month).
Returns `none` where Python raises `ValueError`. -/
def dateFromIsoformat (s : String) : Option Date :=
  match s.data with
  | [y1, y2, y3, y4, s1, m1, m2, s2, d1, d2] =>
    if y1.isDigit ∧ y2.isDigit ∧ y3.isDigit ∧ y4.isDigit ∧ s1 = '-' ∧
        m1.isDigit ∧ m2.isDigit ∧ s2 = '-' ∧ d1.isDigit ∧ d2.isDigit then
      let y := ((digitVal y1 * 10 + digitVal y2) * 10 + digitVal y3) * 10 + digitVal y4
      let m := digitVal m1 * 10 + digitVal m2
      let d := digitVal d1 * 10 + digitVal d2
      if 1 ≤ y ∧ 1 ≤ m ∧ m ≤ 12 ∧ 1 ≤ d ∧ d ≤ daysInMonth y m then
        some ⟨y, m, d⟩
      else none
    else none
  | _ => none

/-- Decimal digits of a natural number (`fuel`-driven so that it is
structurally recursive; the fuel `n + 1` always suffices). -/
def natDigitsAux : Nat → Nat → List Char
  | 0, _ => []
  | fuel + 1, n =>
    if n < 10 then [Char.ofNat (48 + n)]
    else natDigitsAux fuel (n / 10) ++ [Char.ofNat (48 + n % 10)]

/-- Decimal representation of a natural number. -/
def natDecimal (n : Nat) : List Char := natDigitsAux (n + 1) n

/-- Zero-pad a decimal numeral to the given width. -/
def zeroPad (width n : Nat) : List Char :=
  let ds := natDecimal n
  List.replicate (width - ds.length) '0' ++ ds

/-- Python `date.isoformat()`: `YYYY-MM-DD` with zero padding. -/
def Date.isoformat (dt : Date) : String :=
  ⟨zeroPad 4 dt.year ++ ('-' :: zeroPad 2 dt.month) ++ ('-' :: zeroPad 2 dt.day)⟩

/-- The characters Python `str.split()` (no separator argument) splits on,
restricted to the ASCII whitespace that can occur in the scraped text. -/
def pyIsSpace (c : Char) : Bool :=
  c = ' ' ∨ c = '\t' ∨ c = '\n' ∨ c = '\r' ∨ c = '\x0b' ∨ c = '\x0c'

/-- First whitespace-delimited token of a string:
Python `s.split(maxsplit=1)[0]`.  `none` where Python raises `IndexError`
(empty or all-whitespace string). -/
def firstToken (s : String) : Option String :=
  match s.data.dropWhile pyIsSpace with
  | [] => none
  | c :: rest => some ⟨c :: rest.takeWhile (fun d => ¬ pyIsSpace d)⟩

/-- Suffix of `l` after the first occurrence of `sep`:
Python `s.split(sep, 1)[1]`.  `none` where Python raises `IndexError`
(no occurrence of `sep`). -/
def afterFirstAux (sep : List Char) : List Char → Option (List Char)
  | [] => none
  | c :: rest =>
    if sep.isPrefixOf (c :: rest) then some ((c :: rest).drop sep.length)
    else afterFirstAux sep rest

/-- String version of `afterFirstAux`. -/
def afterFirst (sep s : String) : Option String :=
  (afterFirstAux sep.data s.data).map fun cs => ⟨cs⟩

/-- The literal part of the regex `"javascript:alert.+"`. -/
def alertPat : List Char := "javascript:alert".data

/-- Does a match of the regex `"javascript:alert.+"` start at the head of the
list?  The `.+` requires at least one following character other than a
newline (`re.DOTALL` is not set in the source). -/
def alertHere (l : List Char) : Bool :=
  alertPat.isPrefixOf l &&
    (match l.drop alertPat.length with
     | d :: _ => d != '\n'
     | [] => false)

/-- Python `re.search("javascript:alert.+", s) is not None`: a match may start
at any position. -/
def searchAlertAux : List Char → Bool
  | [] => false
  | c :: rest => alertHere (c :: rest) || searchAlertAux rest

/-- `re.search("javascript:alert.+", s)` succeeded. -/
def searchAlert (s : String) : Bool := searchAlertAux s.data

/-- Value of a hexadecimal digit, either case, as accepted by the
`_hextobyte` table of `urllib.parse.unquote_to_bytes`. -/
def hexVal (c : Char) : Option Nat :=
  if 48 ≤ c.toNat ∧ c.toNat ≤ 57 then some (c.toNat - 48)
  else if 97 ≤ c.toNat ∧ c.toNat ≤ 102 then some (c.toNat - 87)
  else if 65 ≤ c.toNat ∧ c.toNat ≤ 70 then some (c.toNat - 55)
  else none

/-- One element of the intermediate stream `urllib.parse.unquote` produces:
either a byte (a decoded `%XX` escape, or a literal ASCII character, both of
which Python accumulates into one `bytes` object and UTF-8-decodes), or a
literal non-ASCII character, which Python passes through untouched. -/
inductive UqItem where
  | byteItem (b : Nat)
  | litItem (c : Char)
deriving DecidableEq, Repr

/-- Scan for `%XX` escapes as `urllib.parse.unquote_to_bytes` does: a `%`
followed by two hex digits becomes the corresponding byte; a `%` not so
followed stays a literal `%` byte.  ASCII characters become their own byte
(they are decoded together with the escaped bytes); non-ASCII characters are
kept as literal characters (CPython splits them out before byte decoding). -/
def uqItems : List Char → List UqItem
  | '%' :: h1 :: h2 :: rest =>
    (match hexVal h1, hexVal h2 with
     | some a, some b => UqItem.byteItem (16 * a + b) :: uqItems rest
     | _, _ => UqItem.byteItem 37 :: uqItems (h1 :: h2 :: rest))
  | c :: rest =>
    (if c.toNat < 128 then UqItem.byteItem c.toNat else UqItem.litItem c) :: uqItems rest
  | [] => []

/-- Is the byte a UTF-8 continuation byte (`0x80`-`0xBF`)? -/
def isContByte (b : Nat) : Bool := 128 ≤ b ∧ b ≤ 191

/-- Valid range of the second byte of a three-byte UTF-8 sequence,
given the first byte (per the Unicode well-formedness table, which
`bytes.decode("utf-8", errors="replace")` enforces). -/
def utf8B3Ok (b0 b1 : Nat) : Bool :=
  if b0 = 224 then decide (160 ≤ b1 ∧ b1 ≤ 191)
  else if b0 = 237 then decide (128 ≤ b1 ∧ b1 ≤ 159)
  else isContByte b1

/-- Valid range of the second byte of a four-byte UTF-8 sequence. -/
def utf8B4Ok (b0 b1 : Nat) : Bool :=
  if b0 = 240 then decide (144 ≤ b1 ∧ b1 ≤ 191)
  else if b0 = 244 then decide (128 ≤ b1 ∧ b1 ≤ 143)
  else isContByte b1

/-- U+FFFD REPLACEMENT CHARACTER. -/
def replChar : Char := Char.ofNat 65533

/-- UTF-8 decoding with `errors="replace"` (maximal-subpart policy, the one
CPython implements): an ill-formed sequence contributes one U+FFFD for its
longest well-formed prefix and decoding resumes at the offending byte.
Fuel-driven (the byte-list length suffices, as every step consumes at least
one byte) so that the definition is structurally recursive. -/
def utf8DecodeAux : Nat → List Nat → List Char
  | 0, _ => []
  | _, [] => []
  | fuel + 1, b0 :: rest =>
    if b0 < 128 then Char.ofNat b0 :: utf8DecodeAux fuel rest
    else if 194 ≤ b0 ∧ b0 ≤ 223 then
      match rest with
      | b1 :: rest2 =>
        if isContByte b1 then
          Char.ofNat ((b0 - 192) * 64 + (b1 - 128)) :: utf8DecodeAux fuel rest2
        else replChar :: utf8DecodeAux fuel rest
      | [] => [replChar]
    else if 224 ≤ b0 ∧ b0 ≤ 239 then
      match rest with
      | b1 :: rest2 =>
        if utf8B3Ok b0 b1 then
          match rest2 with
          | b2 :: rest3 =>
            if isContByte b2 then
              Char.ofNat ((b0 - 224) * 4096 + (b1 - 128) * 64 + (b2 - 128)) ::
                utf8DecodeAux fuel rest3
            else replChar :: utf8DecodeAux fuel rest2
          | [] => [replChar]
        else replChar :: utf8DecodeAux fuel rest
      | [] => [replChar]
    else if 240 ≤ b0 ∧ b0 ≤ 244 then
      match rest with
      | b1 :: rest2 =>
        if utf8B4Ok b0 b1 then
          match rest2 with
          | b2 :: rest3 =>
            if isContByte b2 then
              match rest3 with
              | b3 :: rest4 =>
                if isContByte b3 then
                  Char.ofNat ((b0 - 240) * 262144 + (b1 - 128) * 4096 +
                      (b2 - 128) * 64 + (b3 - 128)) :: utf8DecodeAux fuel rest4
                else replChar :: utf8DecodeAux fuel rest3
              | [] => [replChar]
            else replChar :: utf8DecodeAux fuel rest2
          | [] => [replChar]
        else replChar :: utf8DecodeAux fuel rest
      | [] => [replChar]
    else replChar :: utf8DecodeAux fuel rest

/-- `bytes.decode("utf-8", errors="replace")`. -/
def utf8DecodeReplace (bs : List Nat) : List Char := utf8DecodeAux bs.length bs

/-- Does the item carry a byte? -/
def isByteItem : UqItem → Bool
  | .byteItem _ => true
  | .litItem _ => false

/-- The byte carried by an item, if any. -/
def itemByteVal : UqItem → Option Nat
  | .byteItem b => some b
  | .litItem _ => none

/-- Decode the item stream: each maximal run of bytes is UTF-8-decoded with
replacement, literal characters pass through.  Fuel-driven (the item-list
length suffices) so that the definition is structurally recursive. -/
def uqDecodeAux : Nat → List UqItem → List Char
  | 0, _ => []
  | _, [] => []
  | fuel + 1, .litItem c :: rest => c :: uqDecodeAux fuel rest
  | fuel + 1, .byteItem b :: rest =>
    utf8DecodeReplace (b :: (rest.takeWhile isByteItem).filterMap itemByteVal) ++
      uqDecodeAux fuel (rest.dropWhile isByteItem)

/-- Python `urllib.parse.unquote` with its default arguments
(`encoding="utf-8", errors="replace"`). -/
def unquote (s : String) : String :=
  ⟨uqDecodeAux (uqItems s.data).length (uqItems s.data)⟩

/-- A hyperlink (`<a>` element) as seen through Selenium: its visible text
and its `href` attribute. -/
structure Link where
  text : String
  href : String
deriving DecidableEq, Repr

/-- One data row of the results table: the six `td` cell regions the source
unpacks, each reduced to the attributes the source reads from it. -/
structure Row where
  numberLinks : List Link
  titleLinks : List Link
  authorText : String
  sourceText : String
  sourceHref : Option String
  publishedText : String
  databaseText : String
deriving DecidableEq, Repr

/-- The ways `Result.from_row` can raise, each tagged with the Python
exception it corresponds to. -/
inductive ParseError where
  /-- `IndexError`: `split("domain=", 1)` on the second title link's URL
  produced a single piece (no `domain=` present). -/
  | domainMissing
  /-- `ValueError`: the index cell did not hold exactly two links, so the
  unpacking `dl_links, sno = ...` fails. -/
  | indexCellShape
  /-- `IndexError`: the date cell text had no whitespace-delimited token. -/
  | emptyDateCell
  /-- `ValueError` from `date.fromisoformat`: bad date token. -/
  | badDateToken
  /-- `IndexError`: the title cell had no links, so `title_links[0]` fails. -/
  | noTitleLink
deriving DecidableEq, Repr

/-- A parsed bibliographic record: the `Result` dataclass of the source.
`html_link` and `download` are optional in the source's actual behaviour
(they are assigned `None` in the corresponding branches), and `source_link`
is `get_attribute("href")` of the source cell, which may be absent. -/
structure Result where
  title : String
  title_link : String
  html_link : Option String
  author : String
  source : String
  source_link : Option String
  date : Date
  download : Option String
  database : String
deriving DecidableEq, Repr

/-- Lines 43-52 of the source: if the title cell has more than one link, the
second link's URL is split after the first `domain=` and percent-decoded;
otherwise `html_link` is `None`. -/
def htmlLinkStep : List Link → Except ParseError (Option String)
  | _ :: l1 :: _ =>
    (match afterFirst "domain=" l1.href with
     | some suf => .ok (some (unquote suf))
     | none => .error .domainMissing)
  | _ => .ok none

/-- `Result.from_row`, lines 39-74 of the source, with the source's
evaluation order: the `html_link` branch first, then the unpacking of the
index cell's two links and the alert-pattern test on the download URL, then
the date parse, and finally the accesses to `title_links[0]` made while
constructing the dataclass. -/
def Result.from_row (row : Row) : Except ParseError Result :=
  match htmlLinkStep row.titleLinks with
  | .error e => .error e
  | .ok html_link =>
    match row.numberLinks with
    | [dl, _sno] =>
      let download := if searchAlert dl.href then none else some dl.href
      match firstToken row.publishedText with
      | none => .error .emptyDateCell
      | some tok =>
        match dateFromIsoformat tok with
        | none => .error .badDateToken
        | some d =>
          match row.titleLinks with
          | [] => .error .noTitleLink
          | l0 :: _ =>
            .ok { title := l0.text, title_link := l0.href, html_link := html_link,
                  author := row.authorText, source := row.sourceText,
                  source_link := row.sourceHref, date := d,
                  download := download, database := row.databaseText }
    | _ => .error .indexCellShape

/-- A bibliography entry: one of the three dicts `Result.as_bib` can return.
`venueKey` records which dict key carries the venue (`journaltitle` for
article entries, `institution` for thesis entries). -/
structure BibEntry where
  ID : String
  ENTRYTYPE : String
  author : String
  title : String
  venueKey : String
  venue : String
  date : String
  url : Option String
deriving DecidableEq, Repr

/-- `Result.as_bib`, lines 97-131 of the source.  The source draws a fresh
`uuid.uuid1()` on every call and uses `str(id.hex)` as the `ID` value; the
identifier is therefore a per-call input here, not a field of the record.
The fall-through for any other `database` value returns Python `None`. -/
def Result.as_bib (r : Result) (idHex : String) : Option BibEntry :=
  if r.database = "期刊" ∨ r.database = "輯刊" then
    some ⟨idHex, "article", r.author, r.title, "journaltitle", r.source,
          r.date.isoformat, r.html_link⟩
  else if r.database = "博士" then
    some ⟨idHex, "phdthesis", r.author, r.title, "institution", r.source,
          r.date.isoformat, r.download⟩
  else if r.database = "碩士" then
    some ⟨idHex, "mastersthesis", r.author, r.title, "institution", r.source,
          r.date.isoformat, r.download⟩
  else none

/-- First maximal run of ASCII digits in a string:
`re.search(r"\d+", text)`, `none` when there is no digit (where the source
would fail on subscripting the `None` match object). -/
def firstDigitRun : List Char → Option (List Char)
  | [] => none
  | c :: rest =>
    if c.isDigit then some (c :: rest.takeWhile Char.isDigit)
    else firstDigitRun rest

/-- Numeric value of a digit run. -/
def natOfDigits (ds : List Char) : Nat :=
  ds.foldl (fun a c => a * 10 + digitVal c) 0

/-- Python `int(text)` for the nonnegative numerals that appear in the
page-size element: surrounding whitespace stripped, an optional leading plus
sign, then at least one digit. -/
def pyIntText (s : String) : Option Nat :=
  let stripped := ((s.data.dropWhile pyIsSpace).reverse.dropWhile pyIsSpace).reverse
  let core := match stripped with
    | '+' :: rest => rest
    | l => l
  if core ≠ [] ∧ core.all Char.isDigit then some (natOfDigits core) else none

/-- `math.ceil(n / per)` for naturals (exact ceiling division; the source
computes it through float division, exact at the magnitudes involved). -/
def ceilDiv (n per : Nat) : Nat := (n + per - 1) / per

/-- `SearchResults.number_of_articles_and_pages`, lines 176-189 of the
source: the article count is the first digit run of the count cell's text,
the page size is `int` of the highlighted page-size indicator's text, and the
page count is the ceiling of their quotient.  `none` where the source would
raise (`None` match object, `ValueError` from `int`, or `ZeroDivisionError`).
-/
def number_of_articles_and_pages (articlesText numNowText : String) :
    Option (Nat × Nat) :=
  match firstDigitRun articlesText.data with
  | none => none
  | some ds =>
    match pyIntText numNowText with
    | none => none
    | some per =>
      if per = 0 then none
      else some (natOfDigits ds, ceilDiv (natOfDigits ds) per)

/-- The environment a walk runs against: the text of the two metadata
regions, the rows of each physical results page (in document order, header
row excluded, as located by `get_structured_elements`; a position past the
end of the list stands for a DOM with no matching rows, where
`find_elements` returns an empty list), and the behaviour of the "next page"
control at each loop iteration: `linkAbsent page` means the 30-second wait
for the `下頁` link times out (a `TimeoutException` that `next_page` does not
catch), `clickFails page` means the link is found but `link.click()` raises
a `TimeoutException`/`WebDriverException` (which `next_page` catches,
printing `Last page reached`, so the browser stays on the same page). -/
structure Env where
  articlesText : String
  numNowText : String
  pages : List (List Row)
  clickFails : Nat → Bool
  linkAbsent : Nat → Bool

/-- Parse the rows of one page in order, as consuming the generator
`get_structured_elements` does: records before the first failing row are
produced, and the first failing row's error aborts the iteration. -/
def parseRows : List Row → List Result × Option ParseError
  | [] => ([], none)
  | r :: rs =>
    match Result.from_row r with
    | .error e => ([], some e)
    | .ok v =>
      let rest := parseRows rs
      (v :: rest.1, rest.2)

/-- The exceptions that can propagate out of the walk. -/
inductive WalkError where
  /-- A `ParseError` from `Result.from_row`, uncaught by the walker. -/
  | parseFail (e : ParseError)
  /-- `TimeoutException` from the wait for the `下頁` link in `next_page`
  (raised outside the `try` block there, hence uncaught). -/
  | navMissing
  /-- Metadata extraction in `number_of_articles_and_pages` raised. -/
  | metaFail
deriving DecidableEq, Repr

/-- What draining the `loop_through_results` generator observably produces:
the records yielded in order, the page counters announced by the
`Scraping page {page}/{n_pages}` print at the top of each iteration, and the
exception (if any) that ends the walk. -/
structure WalkOut where
  results : List Result
  visited : List Nat
  err : Option WalkError
deriving DecidableEq, Repr

/-- The `for page in count(1)` loop of `loop_through_results`, lines 224-236
of the source.  `page` is the loop counter, `p` the physical page the
browser currently displays (0-based index into `Env.pages`).  Each iteration
first announces the page and yields the parsed rows of the current physical
page, then breaks when `page >= n_pages or page >= 10`, and otherwise calls
`next_page()`: if the `下頁` link cannot be found the resulting
`TimeoutException` propagates; if it is found but clicking it fails, the
exception is caught inside `next_page` and the loop continues on the same
physical page.  The loop is fuel-driven purely to express the recursion
structurally: the `page >= 10` break guarantees at most 10 iterations, so the
fuel of 10 supplied by `loop_through_results` is never exhausted. -/
def walkFrom (env : Env) (n_pages : Nat) : Nat → Nat → Nat → WalkOut
  | 0, _, _ => ⟨[], [], none⟩
  | fuel + 1, page, p =>
    let pr := parseRows (env.pages.getD p [])
    match pr.2 with
    | some e => ⟨pr.1, [page], some (.parseFail e)⟩
    | none =>
      if page ≥ n_pages ∨ page ≥ 10 then ⟨pr.1, [page], none⟩
      else if env.linkAbsent page then ⟨pr.1, [page], some .navMissing⟩
      else
        let rest := walkFrom env n_pages fuel (page + 1)
          (if env.clickFails page then p else p + 1)
        ⟨pr.1 ++ rest.results, page :: rest.visited, rest.err⟩

/-- `loop_through_results`, lines 217-236 of the source: compute the
metadata once on entry, then run the pagination loop from counter 1 on
physical page 0. -/
def loop_through_results (env : Env) : WalkOut :=
  match number_of_articles_and_pages env.articlesText env.numNowText with
  | none => ⟨[], [], some .metaFail⟩
  | some (_, n_pages) => walkFrom env n_pages 10 1 0

/-- Claim C6: for every Record, a database of `期刊` or `輯刊` exports an
article entry whose venue field (`journaltitle`) equals `source` and whose
URL field equals `html_link`; `博士` (resp. `碩士`) exports a doctoral
(resp. master's) thesis entry whose `institution` field equals `source` and
whose URL field equals `download`; any other database value produces no
entry; every produced entry carries `author`, `title` and the ISO-form date.
-/
theorem c6_as_bib_shapes (r : Result) (idHex : String) :
    ((r.database = "期刊" ∨ r.database = "輯刊") →
      r.as_bib idHex = some ⟨idHex, "article", r.author, r.title, "journaltitle",
        r.source, r.date.isoformat, r.html_link⟩) ∧
    (r.database = "博士" →
      r.as_bib idHex = some ⟨idHex, "phdthesis", r.author, r.title, "institution",
        r.source, r.date.isoformat, r.download⟩) ∧
    (r.database = "碩士" →
      r.as_bib idHex = some ⟨idHex, "mastersthesis", r.author, r.title,
        "institution", r.source, r.date.isoformat, r.download⟩) ∧
    (r.database ≠ "期刊" → r.database ≠ "輯刊" → r.database ≠ "博士" →
      r.database ≠ "碩士" → r.as_bib idHex = none) := by
  refine ⟨fun h => ?_, fun h => ?_, fun h => ?_, fun h1 h2 h3 h4 => ?_⟩
  · rw [Result.as_bib, if_pos h]
  · rw [Result.as_bib, h, if_neg (by decide), if_pos rfl]
  · rw [Result.as_bib, h, if_neg (by decide), if_neg (by decide), if_pos rfl]
  · rw [Result.as_bib, if_neg (by tauto), if_neg h3, if_neg h4]

/-- Claim C6 witness: the four database kinds at concrete records. -/
theorem c6_as_bib_shapes_witness :
    (Result.mk "T" "L" (some "H") "A" "S" none ⟨2020, 12, 28⟩ (some "D")
        "期刊").as_bib "id1" =
      some ⟨"id1", "article", "A", "T", "journaltitle", "S", "2020-12-28",
        some "H"⟩ ∧
    (Result.mk "T" "L" (some "H") "A" "S" none ⟨2020, 12, 28⟩ (some "D")
        "博士").as_bib "id1" =
      some ⟨"id1", "phdthesis", "A", "T", "institution", "S", "2020-12-28",
        some "D"⟩ ∧
    (Result.mk "T" "L" (some "H") "A" "S" none ⟨2020, 12, 28⟩ (some "D")
        "碩士").as_bib "id1" =
      some ⟨"id1", "mastersthesis", "A", "T", "institution", "S", "2020-12-28",
        some "D"⟩ ∧
    (Result.mk "T" "L" (some "H") "A" "S" none ⟨2020, 12, 28⟩ (some "D")
        "unknown").as_bib "id1" = none := by
  refine ⟨?_, ?_, ?_, ?_⟩
  · exact (c6_as_bib_shapes _ "id1").1 (Or.inl rfl)
  · exact (c6_as_bib_shapes _ "id1").2.1 rfl
  · exact (c6_as_bib_shapes _ "id1").2.2.1 rfl
  · exact (c6_as_bib_shapes _ "id1").2.2.2 (by decide) (by decide) (by decide)
      (by decide)

/-- Claim C8: two exports of the same Record with the fresh identifiers the
source draws per call (`uuid.uuid1()` values are distinct across calls)
yield entries that differ in their `ID` field and agree everywhere else; the
identifier is an input of the export, not a field of the Record. -/
theorem c8_fresh_id (r : Result) (id1 id2 : String) (hne : id1 ≠ id2)
    (e1 e2 : BibEntry) (h1 : r.as_bib id1 = some e1)
    (h2 : r.as_bib id2 = some e2) :
    e1.ID ≠ e2.ID ∧ e1.ENTRYTYPE = e2.ENTRYTYPE ∧ e1.author = e2.author ∧
      e1.title = e2.title ∧ e1.venueKey = e2.venueKey ∧ e1.venue = e2.venue ∧
      e1.date = e2.date ∧ e1.url = e2.url := by
  by_cases hj : r.database = "期刊" ∨ r.database = "輯刊"
  · rw [Result.as_bib, if_pos hj] at h1 h2
    injection h1 with h1
    injection h2 with h2
    subst h1; subst h2
    exact ⟨hne, rfl, rfl, rfl, rfl, rfl, rfl, rfl⟩
  · by_cases hd : r.database = "博士"
    · rw [Result.as_bib, if_neg hj, if_pos hd] at h1 h2
      injection h1 with h1
      injection h2 with h2
      subst h1; subst h2
      exact ⟨hne, rfl, rfl, rfl, rfl, rfl, rfl, rfl⟩
    · by_cases hm : r.database = "碩士"
      · rw [Result.as_bib, if_neg hj, if_neg hd, if_pos hm] at h1 h2
        injection h1 with h1
        injection h2 with h2
        subst h1; subst h2
        exact ⟨hne, rfl, rfl, rfl, rfl, rfl, rfl, rfl⟩
      · rw [Result.as_bib, if_neg hj, if_neg hd, if_neg hm] at h1
        exact absurd h1 (by simp)

/-- Claim C8 witness: a journal record exported under two distinct
identifiers. -/
theorem c8_fresh_id_witness :
    ∃ e1 e2 : BibEntry,
      (Result.mk "T" "L" (some "H") "A" "S" none ⟨2020, 12, 28⟩ (some "D")
          "期刊").as_bib "aaaa" = some e1 ∧
      (Result.mk "T" "L" (some "H") "A" "S" none ⟨2020, 12, 28⟩ (some "D")
          "期刊").as_bib "bbbb" = some e2 ∧
      e1.ID ≠ e2.ID ∧ e1.ENTRYTYPE = e2.ENTRYTYPE ∧ e1.author = e2.author ∧
      e1.title = e2.title ∧ e1.venueKey = e2.venueKey ∧ e1.venue = e2.venue ∧
      e1.date = e2.date ∧ e1.url = e2.url := by
  refine ⟨⟨"aaaa", "article", "A", "T", "journaltitle", "S", "2020-12-28",
      some "H"⟩,
    ⟨"bbbb", "article", "A", "T", "journaltitle", "S", "2020-12-28",
      some "H"⟩, by decide, by decide, ?_⟩
  exact c8_fresh_id
    (Result.mk "T" "L" (some "H") "A" "S" none ⟨2020, 12, 28⟩ (some "D") "期刊")
    "aaaa" "bbbb" (by decide) _ _ (by decide) (by decide)

/-- A successful row parse, computed from the shapes of its cell regions. -/
theorem from_row_eq_ok (row : Row) (l0 : Link) (tl : List Link)
    (hl : Option String) (dl sno : Link) (tok : String) (d : Date)
    (hTitle : row.titleLinks = l0 :: tl)
    (hH : htmlLinkStep row.titleLinks = .ok hl)
    (hNum : row.numberLinks = [dl, sno])
    (hTok : firstToken row.publishedText = some tok)
    (hDate : dateFromIsoformat tok = some d) :
    Result.from_row row =
      .ok { title := l0.text, title_link := l0.href, html_link := hl,
            author := row.authorText, source := row.sourceText,
            source_link := row.sourceHref, date := d,
            download := if searchAlert dl.href then none else some dl.href,
            database := row.databaseText } := by
  unfold Result.from_row
  rw [hH]
  simp only [hNum, hTok, hDate, hTitle]

/-- Inversion: what must have held of the row when a parse succeeded. -/
theorem from_row_ok_inv (row : Row) (res : Result)
    (h : Result.from_row row = .ok res) :
    ∃ l0 tl hl dl sno tok d,
      row.titleLinks = l0 :: tl ∧
      htmlLinkStep row.titleLinks = .ok hl ∧
      row.numberLinks = [dl, sno] ∧
      firstToken row.publishedText = some tok ∧
      dateFromIsoformat tok = some d ∧
      res = { title := l0.text, title_link := l0.href, html_link := hl,
              author := row.authorText, source := row.sourceText,
              source_link := row.sourceHref, date := d,
              download := if searchAlert dl.href then none else some dl.href,
              database := row.databaseText } := by
  cases hH : htmlLinkStep row.titleLinks with
  | error e =>
    have hcomp : Result.from_row row = .error e := by
      unfold Result.from_row
      rw [hH]
    rw [hcomp] at h
    simp at h
  | ok hl =>
    rcases hNum : row.numberLinks with - | ⟨dl, - | ⟨sno, - | ⟨x, r⟩⟩⟩
    · have hcomp : Result.from_row row = .error .indexCellShape := by
        unfold Result.from_row
        rw [hH]
        simp only [hNum]
      rw [hcomp] at h
      simp at h
    · have hcomp : Result.from_row row = .error .indexCellShape := by
        unfold Result.from_row
        rw [hH]
        simp only [hNum]
      rw [hcomp] at h
      simp at h
    · cases hTok : firstToken row.publishedText with
      | none =>
        have hcomp : Result.from_row row = .error .emptyDateCell := by
          unfold Result.from_row
          rw [hH]
          simp only [hNum, hTok]
        rw [hcomp] at h
        simp at h
      | some tok =>
        cases hDate : dateFromIsoformat tok with
        | none =>
          have hcomp : Result.from_row row = .error .badDateToken := by
            unfold Result.from_row
            rw [hH]
            simp only [hNum, hTok, hDate]
          rw [hcomp] at h
          simp at h
        | some d =>
          rcases hTitle : row.titleLinks with - | ⟨l0, tl⟩
          · have hcomp : Result.from_row row = .error .noTitleLink := by
              unfold Result.from_row
              rw [hH]
              simp only [hNum, hTok, hDate, hTitle]
            rw [hcomp] at h
            simp at h
          · rw [from_row_eq_ok row l0 tl hl dl sno tok d hTitle hH hNum hTok
              hDate] at h
            injection h with h
            exact ⟨l0, tl, hl, dl, sno, tok, d, rfl, rfl, rfl, rfl, hDate,
              h.symm⟩
    · have hcomp : Result.from_row row = .error .indexCellShape := by
        unfold Result.from_row
        rw [hH]
        simp only [hNum]
      rw [hcomp] at h
      simp at h

/-- Claim C3: in every successfully parsed row, a title cell with exactly one
hyperlink gives an absent `html_link`, and a title cell with exactly two
hyperlinks gives `html_link` equal to the percent-decoded suffix of the
second hyperlink's URL after the first occurrence of `domain=`. -/
theorem c3_html_link (row : Row) (res : Result)
    (h : Result.from_row row = .ok res) :
    (row.titleLinks.length = 1 → res.html_link = none) ∧
    (∀ la lb, row.titleLinks = [la, lb] →
      ∃ suf, afterFirst "domain=" lb.href = some suf ∧
        res.html_link = some (unquote suf)) := by
  obtain ⟨l0, tl, hl, dl, sno, tok, d, hTitle, hH, hNum, hTok, hDate, rfl⟩ :=
    from_row_ok_inv row res h
  constructor
  · intro hlen
    rw [hTitle] at hlen hH
    have htl : tl = [] := by simpa using hlen
    subst htl
    have hhl : hl = none := by simpa [htmlLinkStep] using hH.symm
    simpa using hhl
  · intro la lb hT2
    rw [hTitle] at hT2
    injection hT2 with h1 h2
    subst h1
    subst h2
    rw [hTitle] at hH
    simp only [htmlLinkStep] at hH
    cases hAf : afterFirst "domain=" lb.href with
    | none => rw [hAf] at hH; simp at hH
    | some suf =>
      rw [hAf] at hH
      injection hH with hH
      exact ⟨suf, rfl, by simp [← hH]⟩

/-- Row with a single title hyperlink, for the C3 witness. -/
def c3RowOne : Row :=
  { numberLinks := [⟨"", "http://dl.example/a"⟩, ⟨"1", "http://sno.example/1"⟩],
    titleLinks := [⟨"T", "http://title.example/a"⟩],
    authorText := "A", sourceText := "S", sourceHref := none,
    publishedText := "2020-12-28 note", databaseText := "期刊" }

/-- Row with two title hyperlinks, for the C3 witness. -/
def c3RowTwo : Row :=
  { c3RowOne with titleLinks := [⟨"T", "http://title.example/a"⟩,
      ⟨"", "http://r.example/RR.aspx?flag=html&domain=http%3a%2f%2fkns.example%2fKX"⟩] }

/-- The record parsed from `c3RowOne`. -/
def c3ResOne : Result :=
  { title := "T", title_link := "http://title.example/a", html_link := none,
    author := "A", source := "S", source_link := none,
    date := ⟨2020, 12, 28⟩, download := some "http://dl.example/a",
    database := "期刊" }

/-- The record parsed from `c3RowTwo`. -/
def c3ResTwo : Result :=
  { c3ResOne with html_link := some "http://kns.example/KX" }

/-- Claim C3 witness: both link-count cases at concrete rows. -/
theorem c3_html_link_witness :
    (Result.from_row c3RowOne = .ok c3ResOne ∧ c3ResOne.html_link = none) ∧
    (Result.from_row c3RowTwo = .ok c3ResTwo ∧
      ∃ suf, afterFirst "domain="
          "http://r.example/RR.aspx?flag=html&domain=http%3a%2f%2fkns.example%2fKX" =
          some suf ∧
        c3ResTwo.html_link = some (unquote suf)) := by
  refine ⟨⟨rfl, ?_⟩, ⟨rfl, ?_⟩⟩
  · exact (c3_html_link c3RowOne c3ResOne rfl).1 rfl
  · exact (c3_html_link c3RowTwo c3ResTwo rfl).2 _ _ rfl

/-- Claim C4: in every successfully parsed row, the index cell holds exactly
two links; if the first (download) link's URL matches the regex
`javascript:alert.+` the record's `download` is absent, and otherwise
`download` is that literal URL. -/
theorem c4_download_alert (row : Row) (res : Result)
    (h : Result.from_row row = .ok res) :
    ∃ dl sno, row.numberLinks = [dl, sno] ∧
      (searchAlert dl.href = true → res.download = none) ∧
      (searchAlert dl.href = false → res.download = some dl.href) := by
  obtain ⟨l0, tl, hl, dl, sno, tok, d, hTitle, hH, hNum, hTok, hDate, rfl⟩ :=
    from_row_ok_inv row res h
  exact ⟨dl, sno, hNum, fun hA => by simp [hA], fun hA => by simp [hA]⟩

/-- Row whose download link is the alert placeholder, for the C4 witness. -/
def c4RowAlert : Row :=
  { numberLinks := [⟨"", "javascript:alert(XLS)"⟩, ⟨"1", "http://sno.example/1"⟩],
    titleLinks := [⟨"T", "http://title.example/a"⟩],
    authorText := "A", sourceText := "S", sourceHref := none,
    publishedText := "2021-01-02", databaseText := "碩士" }

/-- Row whose download link is a real URL, for the C4 witness. -/
def c4RowReal : Row :=
  { c4RowAlert with
      numberLinks := [⟨"", "http://dl.example/b"⟩, ⟨"1", "http://sno.example/1"⟩] }

/-- Claim C4 witness: the alert-placeholder and real-link cases at concrete
rows. -/
theorem c4_download_alert_witness :
    (∃ res, Result.from_row c4RowAlert = .ok res ∧ res.download = none) ∧
    (∃ res, Result.from_row c4RowReal = .ok res ∧
      res.download = some "http://dl.example/b") := by
  constructor
  · obtain ⟨res, hres⟩ : ∃ res, Result.from_row c4RowAlert = .ok res :=
      ⟨_, rfl⟩
    obtain ⟨dl, sno, hNum, hAbsent, -⟩ := c4_download_alert c4RowAlert res hres
    refine ⟨res, hres, ?_⟩
    injection hNum with h1 h2
    subst h1
    exact hAbsent rfl
  · obtain ⟨res, hres⟩ : ∃ res, Result.from_row c4RowReal = .ok res :=
      ⟨_, rfl⟩
    obtain ⟨dl, sno, hNum, -, hLit⟩ := c4_download_alert c4RowReal res hres
    refine ⟨res, hres, ?_⟩
    injection hNum with h1 h2
    subst h1
    exact hLit rfl

/-- Claim C5: for a row whose other cell regions are well-formed, if the
first whitespace-delimited token of the date cell's text is a valid ISO
date, the parse succeeds and the record's date is that date; and whenever
the first token is not a valid ISO date, the parse fails with a parse
error (whatever the other cells hold). -/
theorem c5_date_parsing (row : Row) :
    (∀ tok d, firstToken row.publishedText = some tok →
      dateFromIsoformat tok = some d →
      (∃ hl, htmlLinkStep row.titleLinks = .ok hl) →
      (∃ dl sno, row.numberLinks = [dl, sno]) →
      (∃ l0 tl, row.titleLinks = l0 :: tl) →
      ∃ res, Result.from_row row = .ok res ∧ res.date = d) ∧
    (∀ tok, firstToken row.publishedText = some tok →
      dateFromIsoformat tok = none →
      ∃ e, Result.from_row row = .error e) := by
  constructor
  · rintro tok d hTok hDate ⟨hl, hH⟩ ⟨dl, sno, hNum⟩ ⟨l0, tl, hTitle⟩
    exact ⟨_, from_row_eq_ok row l0 tl hl dl sno tok d hTitle hH hNum hTok
      hDate, rfl⟩
  · intro tok hTok hDate
    cases hres : Result.from_row row with
    | error e => exact ⟨e, rfl⟩
    | ok res =>
      obtain ⟨l0, tl, hl, dl, sno, tok2, d, hTitle, hH, hNum, hTok2, hDate2, -⟩ :=
        from_row_ok_inv row res hres
      rw [hTok] at hTok2
      injection hTok2 with hTok2
      subst hTok2
      rw [hDate] at hDate2
      exact absurd hDate2 (by simp)

/-- Row with a valid ISO date token, for the C5 witness. -/
def c5RowGood : Row :=
  { numberLinks := [⟨"", "http://dl.example/a"⟩, ⟨"1", "http://sno.example/1"⟩],
    titleLinks := [⟨"T", "http://title.example/a"⟩],
    authorText := "A", sourceText := "S", sourceHref := none,
    publishedText := " 2019-02-28  rest of cell", databaseText := "期刊" }

/-- Row whose date token is not a valid ISO date, for the C5 witness. -/
def c5RowBad : Row :=
  { c5RowGood with publishedText := "2019-02-29 rest" }

/-- Claim C5 witness: a valid and an invalid date token at concrete rows. -/
theorem c5_date_parsing_witness :
    (∃ res, Result.from_row c5RowGood = .ok res ∧
      res.date = ⟨2019, 2, 28⟩) ∧
    (∃ e, Result.from_row c5RowBad = .error e) := by
  constructor
  · exact (c5_date_parsing c5RowGood).1 "2019-02-28" ⟨2019, 2, 28⟩ rfl rfl
      ⟨none, rfl⟩ ⟨_, _, rfl⟩ ⟨_, _, rfl⟩
  · exact (c5_date_parsing c5RowBad).2 "2019-02-29" rfl rfl

/-- Claim C10: a title cell with three or more hyperlinks does not make the
parse fail: given the usual well-formedness of the other regions, the parse
succeeds, takes title and URL from the first link and `html_link` from the
second, and returns exactly the record it would return had the cell held
only the first two links. -/
theorem c10_extra_links_ignored (row : Row) (la lb lc : Link)
    (rest : List Link) (suf : String) (dl sno : Link) (tok : String) (d : Date)
    (hTitle : row.titleLinks = la :: lb :: lc :: rest)
    (hdom : afterFirst "domain=" lb.href = some suf)
    (hNum : row.numberLinks = [dl, sno])
    (hTok : firstToken row.publishedText = some tok)
    (hDate : dateFromIsoformat tok = some d) :
    ∃ res, Result.from_row row = .ok res ∧ res.title = la.text ∧
      res.title_link = la.href ∧ res.html_link = some (unquote suf) ∧
      Result.from_row { row with titleLinks := [la, lb] } = .ok res := by
  have hH : htmlLinkStep row.titleLinks = .ok (some (unquote suf)) := by
    rw [hTitle]
    simp only [htmlLinkStep, hdom]
  refine ⟨_, from_row_eq_ok row la (lb :: lc :: rest) (some (unquote suf)) dl
    sno tok d hTitle hH hNum hTok hDate, rfl, rfl, rfl, ?_⟩
  have hH2 : htmlLinkStep ([la, lb] : List Link) = .ok (some (unquote suf)) := by
    simp only [htmlLinkStep, hdom]
  exact from_row_eq_ok { row with titleLinks := [la, lb] } la [lb]
    (some (unquote suf)) dl sno tok d rfl hH2 hNum hTok hDate

/-- Row with three title hyperlinks, for the C10 witness. -/
def c10Row : Row :=
  { numberLinks := [⟨"", "http://dl.example/a"⟩, ⟨"1", "http://sno.example/1"⟩],
    titleLinks := [⟨"T", "http://title.example/a"⟩,
      ⟨"", "http://r.example/RR.aspx?flag=html&domain=http%3a%2f%2fkns.example%2fKX"⟩,
      ⟨"extra", "http://extra.example/x"⟩],
    authorText := "A", sourceText := "S", sourceHref := none,
    publishedText := "2020-12-28", databaseText := "期刊" }

/-- Claim C10 witness: a three-link row parses, ignoring the third link. -/
theorem c10_extra_links_ignored_witness :
    ∃ res, Result.from_row c10Row = .ok res ∧ res.title = "T" ∧
      res.title_link = "http://title.example/a" ∧
      res.html_link = some (unquote "http%3a%2f%2fkns.example%2fKX") ∧
      Result.from_row { c10Row with
        titleLinks := [⟨"T", "http://title.example/a"⟩,
          ⟨"", "http://r.example/RR.aspx?flag=html&domain=http%3a%2f%2fkns.example%2fKX"⟩] } =
        .ok res := by
  exact c10_extra_links_ignored c10Row
    ⟨"T", "http://title.example/a"⟩
    ⟨"", "http://r.example/RR.aspx?flag=html&domain=http%3a%2f%2fkns.example%2fKX"⟩
    ⟨"extra", "http://extra.example/x"⟩ [] "http%3a%2f%2fkns.example%2fKX"
    ⟨"", "http://dl.example/a"⟩ ⟨"1", "http://sno.example/1"⟩
    "2020-12-28" ⟨2020, 12, 28⟩ rfl rfl rfl rfl rfl

/-- Unfolding of one loop iteration whose page has a failing row. -/
theorem walkFrom_succ_parse_error (env : Env) (n_pages fuel page p : Nat)
    (e : ParseError) (hpr : (parseRows (env.pages.getD p [])).2 = some e) :
    walkFrom env n_pages (fuel + 1) page p =
      ⟨(parseRows (env.pages.getD p [])).1, [page], some (.parseFail e)⟩ := by
  simp only [walkFrom, hpr]

/-- Unfolding of the final loop iteration (the break fires). -/
theorem walkFrom_succ_stop (env : Env) (n_pages fuel page p : Nat)
    (hpr : (parseRows (env.pages.getD p [])).2 = none)
    (hstop : page ≥ n_pages ∨ page ≥ 10) :
    walkFrom env n_pages (fuel + 1) page p =
      ⟨(parseRows (env.pages.getD p [])).1, [page], none⟩ := by
  simp only [walkFrom, hpr]
  rw [if_pos hstop]

/-- Unfolding of a loop iteration where the next-page link is not found:
the `TimeoutException` propagates. -/
theorem walkFrom_succ_navmissing (env : Env) (n_pages fuel page p : Nat)
    (hpr : (parseRows (env.pages.getD p [])).2 = none)
    (hstop : ¬(page ≥ n_pages ∨ page ≥ 10))
    (hlink : env.linkAbsent page = true) :
    walkFrom env n_pages (fuel + 1) page p =
      ⟨(parseRows (env.pages.getD p [])).1, [page], some .navMissing⟩ := by
  simp only [walkFrom, hpr]
  rw [if_neg hstop, if_pos hlink]

/-- Unfolding of a loop iteration that continues: `next_page` is attempted
and the walk proceeds, on the next physical page if the click succeeded and
on the same one if it failed. -/
theorem walkFrom_succ_cont (env : Env) (n_pages fuel page p : Nat)
    (hpr : (parseRows (env.pages.getD p [])).2 = none)
    (hstop : ¬(page ≥ n_pages ∨ page ≥ 10))
    (hlink : env.linkAbsent page = false) :
    walkFrom env n_pages (fuel + 1) page p =
      ⟨(parseRows (env.pages.getD p [])).1 ++
          (walkFrom env n_pages fuel (page + 1)
            (if env.clickFails page then p else p + 1)).results,
        page :: (walkFrom env n_pages fuel (page + 1)
          (if env.clickFails page then p else p + 1)).visited,
        (walkFrom env n_pages fuel (page + 1)
          (if env.clickFails page then p else p + 1)).err⟩ := by
  simp only [walkFrom, hpr]
  rw [if_neg hstop, if_neg (by rw [hlink]; exact Bool.false_ne_true)]

/-- In an error-free walk the announced page counters are the contiguous
block from `page` up to `max page (min n_pages 10)`, regardless of
`clickFails`: a caught click failure never shortens the iteration count. -/
theorem walkFrom_visited (env : Env) (n_pages : Nat) :
    ∀ fuel page p, page ≤ 10 → 10 < page + fuel →
      (walkFrom env n_pages fuel page p).err = none →
      (walkFrom env n_pages fuel page p).visited =
        List.range' page (max page (min n_pages 10) + 1 - page) := by
  intro fuel
  induction fuel with
  | zero => intro page p h10 hsum herr; omega
  | succ fuel ih =>
    intro page p h10 hsum herr
    cases hpr : (parseRows (env.pages.getD p [])).2 with
    | some e =>
      rw [walkFrom_succ_parse_error env n_pages fuel page p e hpr] at herr
      simp at herr
    | none =>
      by_cases hstop : page ≥ n_pages ∨ page ≥ 10
      · rw [walkFrom_succ_stop env n_pages fuel page p hpr hstop]
        have hone : max page (min n_pages 10) + 1 - page = 1 := by omega
        rw [hone]
        rfl
      · cases hlink : env.linkAbsent page with
        | true =>
          rw [walkFrom_succ_navmissing env n_pages fuel page p hpr hstop
            hlink] at herr
          simp at herr
        | false =>
          rw [walkFrom_succ_cont env n_pages fuel page p hpr hstop hlink]
            at herr ⊢
          simp only at herr
          have hrest := ih (page + 1)
            (if env.clickFails page then p else p + 1) (by omega) (by omega)
            herr
          simp only
          rw [hrest]
          have h1 : max page (min n_pages 10) + 1 - page =
              (max (page + 1) (min n_pages 10) + 1 - (page + 1)) + 1 := by
            omega
          rw [h1]
          rfl

/-- In an error-free walk in which no click fails, the records are the
concatenated parses of the consecutive physical pages starting at `p`. -/
theorem walkFrom_results (env : Env) (n_pages : Nat)
    (hclick : ∀ k, env.clickFails k = false) :
    ∀ fuel page p, page ≤ 10 → 10 < page + fuel →
      (walkFrom env n_pages fuel page p).err = none →
      (walkFrom env n_pages fuel page p).results =
        ((List.range (max page (min n_pages 10) + 1 - page)).map
          (fun i => (parseRows (env.pages.getD (p + i) [])).1)).flatten := by
  intro fuel
  induction fuel with
  | zero => intro page p h10 hsum herr; omega
  | succ fuel ih =>
    intro page p h10 hsum herr
    cases hpr : (parseRows (env.pages.getD p [])).2 with
    | some e =>
      rw [walkFrom_succ_parse_error env n_pages fuel page p e hpr] at herr
      simp at herr
    | none =>
      by_cases hstop : page ≥ n_pages ∨ page ≥ 10
      · rw [walkFrom_succ_stop env n_pages fuel page p hpr hstop]
        have hone : max page (min n_pages 10) + 1 - page = 1 := by omega
        rw [hone]
        simp [List.range_succ]
      · cases hlink : env.linkAbsent page with
        | true =>
          rw [walkFrom_succ_navmissing env n_pages fuel page p hpr hstop
            hlink] at herr
          simp at herr
        | false =>
          have hp2 : (if env.clickFails page then p else p + 1) = p + 1 := by
            rw [hclick page]
            simp
          rw [walkFrom_succ_cont env n_pages fuel page p hpr hstop hlink]
            at herr ⊢
          simp only at herr ⊢
          rw [hp2] at herr ⊢
          have hrest := ih (page + 1) (p + 1) (by omega) (by omega) herr
          rw [hrest]
          have h1 : max page (min n_pages 10) + 1 - page =
              (max (page + 1) (min n_pages 10) + 1 - (page + 1)) + 1 := by
            omega
          rw [h1, List.range_succ_eq_map]
          simp [List.map_map, Function.comp, Nat.succ_eq_add_one,
            Nat.add_comm, Nat.add_assoc, Nat.add_left_comm]
          rfl

/-- Consuming `get_structured_elements` over a page whose rows parse cleanly
up to a failing row yields the clean prefix, then the error. -/
theorem parseRows_split (good : List Row) (bad : Row) (rest : List Row)
    (e : ParseError)
    (hgood : ∀ r ∈ good, ∃ v, Result.from_row r = .ok v)
    (hbad : Result.from_row bad = .error e) :
    parseRows (good ++ bad :: rest) =
      (good.filterMap (fun r => (Result.from_row r).toOption), some e) := by
  induction good with
  | nil => simp [parseRows, hbad]
  | cons r rs ih =>
    obtain ⟨v, hv⟩ := hgood r (by simp)
    have hih := ih (fun x hx => hgood x (by simp [hx]))
    simp [parseRows, hv, hih, List.filterMap_cons, Except.toOption]

/-- The physical results page the browser displays at the start of loop
iteration `i` (1-based; index into `Env.pages`): each iteration whose click
succeeds moves one page forward, a failed click leaves the browser where it
is. -/
def physPage (env : Env) : Nat → Nat
  | 0 => 0
  | 1 => 0
  | i + 2 =>
    if env.clickFails (i + 1) then physPage env (i + 1)
    else physPage env (i + 1) + 1

/-- One navigation step of the physical-page trajectory. -/
theorem physPage_succ (env : Env) (page : Nat) (h1 : 1 ≤ page) :
    physPage env (page + 1) =
      if env.clickFails page then physPage env page
      else physPage env page + 1 := by
  cases page with
  | zero => exact absurd h1 (by omega)
  | succ i => rfl

/-- If the loop runs failure-free up to iteration `j` (earlier pages parse
cleanly, the loop neither breaks nor loses the next-page link before `j`)
and the page displayed at iteration `j` has a failing row, the walk ends at
iteration `j` with that parse error, having yielded the full parses of the
earlier iterations' pages and the clean prefix of page `j` — nothing after
the error. -/
theorem walkFrom_abort_at (env : Env) (n_pages j : Nat) (e : ParseError)
    (hfail : (parseRows (env.pages.getD (physPage env j) [])).2 = some e) :
    ∀ fuel page, 1 ≤ page → page ≤ 10 → 10 < page + fuel → page ≤ j →
      (∀ i, page ≤ i → i < j →
        (parseRows (env.pages.getD (physPage env i) [])).2 = none) →
      (∀ i, page ≤ i → i < j →
        (i < n_pages ∧ i < 10) ∧ env.linkAbsent i = false) →
      walkFrom env n_pages fuel page (physPage env page) =
        ⟨((List.range' page (j - page)).map
            (fun i => (parseRows (env.pages.getD (physPage env i) [])).1)).flatten ++
            (parseRows (env.pages.getD (physPage env j) [])).1,
          List.range' page (j - page + 1), some (.parseFail e)⟩ := by
  intro fuel
  induction fuel with
  | zero => intro page h1 h10 hsum hj hclean hcont; omega
  | succ fuel ih =>
    intro page h1 h10 hsum hj hclean hcont
    by_cases hpj : page = j
    · subst hpj
      rw [walkFrom_succ_parse_error env n_pages fuel page (physPage env page) e
        hfail]
      simp [Nat.sub_self]
    · have hlt : page < j := by omega
      have h0 := hclean page (le_refl page) hlt
      have hc := hcont page (le_refl page) hlt
      have hstop : ¬(page ≥ n_pages ∨ page ≥ 10) := by
        push_neg
        omega
      rw [walkFrom_succ_cont env n_pages fuel page (physPage env page) h0 hstop
        hc.2]
      rw [← physPage_succ env page h1]
      rw [ih (page + 1) (by omega) (by omega) (by omega) (by omega)
        (fun i hi hij => hclean i (by omega) hij)
        (fun i hi hij => hcont i (by omega) hij)]
      have harith : j - page = (j - (page + 1)) + 1 := by omega
      rw [harith]
      simp only [List.range'_succ, List.map_cons, List.flatten_cons,
        List.append_assoc]

/-- Claim C7: a parse error in any row of any visited page is not caught by
the walker: if the walk reaches iteration `j` (all earlier pages parsed
cleanly and navigation neither stopped nor failed before `j`) and the page
displayed there holds a failing row, the walk propagates that error to its
consumer after yielding exactly the records of the earlier pages and of the
rows before the failing one — nothing from the failing row, the rows after
it, or any later page, and no partial record for the failing row. -/
theorem c7_parse_error_aborts (env : Env) (n npages j : Nat)
    (hm : number_of_articles_and_pages env.articlesText env.numNowText =
      some (n, npages))
    (hj : 1 ≤ j)
    (good : List Row) (bad : Row) (rest : List Row) (e : ParseError)
    (hpage : env.pages.getD (physPage env j) [] = good ++ bad :: rest)
    (hgood : ∀ r ∈ good, ∃ v, Result.from_row r = .ok v)
    (hbad : Result.from_row bad = .error e)
    (hclean : ∀ i, 1 ≤ i → i < j →
      (parseRows (env.pages.getD (physPage env i) [])).2 = none)
    (hreach : ∀ i, 1 ≤ i → i < j →
      (i < npages ∧ i < 10) ∧ env.linkAbsent i = false) :
    loop_through_results env =
      ⟨((List.range' 1 (j - 1)).map
          (fun i => (parseRows (env.pages.getD (physPage env i) [])).1)).flatten ++
          good.filterMap (fun r => (Result.from_row r).toOption),
        List.range' 1 j, some (.parseFail e)⟩ := by
  have hsplit := parseRows_split good bad rest e hgood hbad
  have hfail : (parseRows (env.pages.getD (physPage env j) [])).2 = some e := by
    rw [hpage, hsplit]
  have hloop : loop_through_results env =
      walkFrom env npages 10 1 (physPage env 1) := by
    unfold loop_through_results
    rw [hm]
    rfl
  rw [hloop]
  rw [walkFrom_abort_at env npages j e hfail 10 1 (by omega) (by omega)
    (by omega) hj hclean hreach]
  have harith : j - 1 + 1 = j := by omega
  rw [hpage, hsplit, harith]

/-- A well-formed journal row, for the C7 witness. -/
def c7GoodRow : Row :=
  { numberLinks := [⟨"", "http://dl.example/a"⟩, ⟨"1", "http://sno.example/1"⟩],
    titleLinks := [⟨"T", "http://title.example/a"⟩],
    authorText := "A", sourceText := "S", sourceHref := none,
    publishedText := "2020-12-28", databaseText := "期刊" }

/-- A row whose date cell cannot be parsed, for the C7 witness. -/
def c7BadRow : Row := { c7GoodRow with publishedText := "n.d." }

/-- A well-formed row placed after the failing one, for the C7 witness. -/
def c7TailRow : Row := { c7GoodRow with authorText := "B" }

/-- Environment whose second visited page fails on its second row, for the
C7 witness: a clean first page precedes the failure, and another row
follows the failing one. -/
def c7Env : Env :=
  { articlesText := "30", numNowText := "10",
    pages := [[c7GoodRow], [c7GoodRow, c7BadRow, c7TailRow]],
    clickFails := fun _ => false, linkAbsent := fun _ => false }

/-- Claim C7 witness: a failing row on the second visited page aborts the
walk there; the first page's record and the one good row before the failure
are yielded, nothing after. -/
theorem c7_parse_error_aborts_witness :
    loop_through_results c7Env =
      ⟨((List.range' 1 (2 - 1)).map
          (fun i => (parseRows (c7Env.pages.getD (physPage c7Env i) [])).1)).flatten ++
          [c7GoodRow].filterMap (fun r => (Result.from_row r).toOption),
        List.range' 1 2, some (.parseFail .badDateToken)⟩ :=
  c7_parse_error_aborts c7Env 30 3 2 rfl (by omega) [c7GoodRow] c7BadRow
    [c7TailRow] .badDateToken rfl
    (by
      intro r hr
      simp at hr
      subst hr
      exact ⟨_, rfl⟩)
    rfl
    (by
      intro i hi1 hi2
      have hi : i = 1 := by omega
      subst hi
      rfl)
    (by
      intro i hi1 hi2
      have hi : i = 1 := by omega
      subst hi
      exact ⟨⟨by omega, by omega⟩, rfl⟩)

/-- Claim C9: when the metadata reports zero results (hence zero pages), the
loop body still runs exactly once: the page counter 1 is announced, the rows
of the displayed table are parsed and yielded, and the walk stops without
calling `next_page`. -/
theorem c9_zero_pages_one_iteration (env : Env)
    (hm : number_of_articles_and_pages env.articlesText env.numNowText =
      some (0, 0)) :
    loop_through_results env =
      ⟨(parseRows (env.pages.getD 0 [])).1, [1],
        (parseRows (env.pages.getD 0 [])).2.map WalkError.parseFail⟩ := by
  have hloop : loop_through_results env = walkFrom env 0 (9 + 1) 1 0 := by
    unfold loop_through_results
    rw [hm]
  rw [hloop]
  cases hpr : (parseRows (env.pages.getD 0 [])).2 with
  | some e =>
    rw [walkFrom_succ_parse_error env 0 9 1 0 e hpr]
    rfl
  | none =>
    rw [walkFrom_succ_stop env 0 9 1 0 hpr (Or.inl (by omega))]
    rfl

/-- Environment reporting zero results while its table still shows a row,
for the C9 witness. -/
def c9Env : Env :=
  { articlesText := "找到 0 條結果", numNowText := "20",
    pages := [[c7GoodRow]],
    clickFails := fun _ => false, linkAbsent := fun _ => false }

/-- Claim C9 witness: with zero reported pages the walk still announces page
1 and yields the row present in the table. -/
theorem c9_zero_pages_one_iteration_witness :
    loop_through_results c9Env =
      ⟨(parseRows (c9Env.pages.getD 0 [])).1, [1],
        (parseRows (c9Env.pages.getD 0 [])).2.map WalkError.parseFail⟩ :=
  c9_zero_pages_one_iteration c9Env rfl

/-- Environment reporting zero results whose displayed table still holds a
row, refuting claim C2 as stated. -/
def c2CexEnv : Env :=
  { articlesText := "0", numNowText := "50",
    pages := [[c7GoodRow]],
    clickFails := fun _ => false, linkAbsent := fun _ => false }

/-- Claim C2 counterexample: with `total_pages = 0` the walker does not
visit `min(total_pages, 10) = 0` pages — it announces page 1 and yields a
record, because the loop body runs before the termination test. -/
theorem c2_counterexample :
    number_of_articles_and_pages c2CexEnv.articlesText c2CexEnv.numNowText =
      some (0, 0) ∧
    (loop_through_results c2CexEnv).err = none ∧
    (loop_through_results c2CexEnv).visited = [1] ∧
    (loop_through_results c2CexEnv).results.length = 1 :=
  ⟨rfl, rfl, rfl, rfl⟩

/-- Claim C2 as amended: `total_pages` is computed once on entry as
`ceil(total_result_count / page_size)`, and an error-free walk visits
exactly `max 1 (min total_pages 10)` pages — the page counters announced
are `1, 2, ..., max 1 (min total_pages 10)` — at least one page even when
`total_pages = 0`, because the loop body precedes the termination test.
When additionally no next-page click fails, the walk yields all parsed
records of each visited physical page, in order, before stopping. -/
theorem c2_pages_visited (env : Env) (ds : List Char) (per : Nat)
    (hd : firstDigitRun env.articlesText.data = some ds)
    (hp : pyIntText env.numNowText = some per) (hper : per ≠ 0)
    (herr : (loop_through_results env).err = none) :
    number_of_articles_and_pages env.articlesText env.numNowText =
      some (natOfDigits ds, ceilDiv (natOfDigits ds) per) ∧
    (loop_through_results env).visited =
      List.range' 1 (max 1 (min (ceilDiv (natOfDigits ds) per) 10)) ∧
    ((∀ k, env.clickFails k = false) →
      (loop_through_results env).results =
        ((List.range (max 1 (min (ceilDiv (natOfDigits ds) per) 10))).map
          (fun i => (parseRows (env.pages.getD i [])).1)).flatten) := by
  have hm : number_of_articles_and_pages env.articlesText env.numNowText =
      some (natOfDigits ds, ceilDiv (natOfDigits ds) per) := by
    unfold number_of_articles_and_pages
    simp only [hd, hp]
    rw [if_neg hper]
  have hloop : loop_through_results env =
      walkFrom env (ceilDiv (natOfDigits ds) per) 10 1 0 := by
    unfold loop_through_results
    rw [hm]
  rw [hloop] at herr ⊢
  refine ⟨hm, ?_, ?_⟩
  · rw [walkFrom_visited env _ 10 1 0 (by omega) (by omega) herr]
    congr 1
  · intro hclick
    rw [walkFrom_results env _ hclick 10 1 0 (by omega) (by omega) herr]
    have hA : max 1 (min (ceilDiv (natOfDigits ds) per) 10) + 1 - 1 =
        max 1 (min (ceilDiv (natOfDigits ds) per) 10) := by omega
    rw [hA]
    simp only [Nat.zero_add]

/-- Environment with three one-row pages and no navigation failures, for
the C2 witness. -/
def c2WitEnv : Env :=
  { articlesText := "3", numNowText := "1",
    pages := [[c7GoodRow], [c7TailRow], [c7GoodRow]],
    clickFails := fun _ => false, linkAbsent := fun _ => false }

/-- Claim C2 witness: three reported pages, three visited pages, and the
concatenated page parses as output. -/
theorem c2_pages_visited_witness :
    number_of_articles_and_pages c2WitEnv.articlesText c2WitEnv.numNowText =
      some (natOfDigits "3".data, ceilDiv (natOfDigits "3".data) 1) ∧
    (loop_through_results c2WitEnv).visited =
      List.range' 1 (max 1 (min (ceilDiv (natOfDigits "3".data) 1) 10)) ∧
    (loop_through_results c2WitEnv).results =
      ((List.range (max 1 (min (ceilDiv (natOfDigits "3".data) 1) 10))).map
        (fun i => (parseRows (c2WitEnv.pages.getD i [])).1)).flatten := by
  obtain ⟨h1, h2, h3⟩ :=
    c2_pages_visited c2WitEnv "3".data 1 rfl rfl (by decide) rfl
  exact ⟨h1, h2, h3 (fun k => rfl)⟩

/-- Two-page environment whose next-page click fails at iteration 1,
refuting claim C1 as stated. -/
def c1CexEnv : Env :=
  { articlesText := "2", numNowText := "1",
    pages := [[c7GoodRow], [c7TailRow]],
    clickFails := fun k => k == 1, linkAbsent := fun _ => false }

/-- The record parsed from `c7GoodRow`. -/
def c1CexRec : Result :=
  { title := "T", title_link := "http://title.example/a", html_link := none,
    author := "A", source := "S", source_link := none,
    date := ⟨2020, 12, 28⟩, download := some "http://dl.example/a",
    database := "期刊" }

/-- Claim C1 counterexample: activating the next-page control fails (a
caught click error) at iteration 1 of a 2-page walk, yet the walker does
not stop: it announces page 2, re-reads the page the browser is still on,
and yields the same record a second time. -/
theorem c1_counterexample :
    c1CexEnv.clickFails 1 = true ∧
    number_of_articles_and_pages c1CexEnv.articlesText c1CexEnv.numNowText =
      some (2, 2) ∧
    loop_through_results c1CexEnv = ⟨[c1CexRec, c1CexRec], [1, 2], none⟩ :=
  ⟨rfl, rfl, rfl⟩

/-- Claim C1 as amended: `next_page` returns no boolean signal — on a click
timeout or stale/unclickable control it catches the exception (printing
`Last page reached`) and returns `None` — and `loop_through_results` never
consults any such signal: even when a click fails at an iteration `k`
strictly before the counter bound, an error-free walk still announces the
full run of page counters `1, ..., max 1 (min total_pages 10)` and stops
only through those counters; the iteration after the failed click re-reads
the page the browser is still on.  (An absent next-page control instead
aborts the walk with an uncaught timeout error.) -/
theorem c1_advance_failure_does_not_stop_walk (env : Env) (n npages k : Nat)
    (hm : number_of_articles_and_pages env.articlesText env.numNowText =
      some (n, npages))
    (hk1 : 1 ≤ k) (hk : k < max 1 (min npages 10))
    (hfail : env.clickFails k = true)
    (herr : (loop_through_results env).err = none) :
    (loop_through_results env).visited =
      List.range' 1 (max 1 (min npages 10)) ∧
    (loop_through_results env).visited.length = max 1 (min npages 10) := by
  have hloop : loop_through_results env = walkFrom env npages 10 1 0 := by
    unfold loop_through_results
    rw [hm]
  rw [hloop] at herr ⊢
  have hv := walkFrom_visited env npages 10 1 0 (by omega) (by omega) herr
  have harith : max 1 (min npages 10) + 1 - 1 = max 1 (min npages 10) := by
    omega
  rw [harith] at hv
  exact ⟨hv, by rw [hv]; simp [List.length_range']⟩

/-- Three-page environment whose next-page click fails at iteration 1, for
the C1 witness. -/
def c1WitEnv : Env :=
  { articlesText := "3", numNowText := "1",
    pages := [[c7GoodRow], [c7TailRow], [c7GoodRow]],
    clickFails := fun k => k == 1, linkAbsent := fun _ => false }

/-- Claim C1 witness: a click failure at iteration 1 of an error-free
3-page walk does not shorten the walk. -/
theorem c1_advance_failure_witness :
    (loop_through_results c1WitEnv).visited =
      List.range' 1 (max 1 (min 3 10)) ∧
    (loop_through_results c1WitEnv).visited.length = max 1 (min 3 10) :=
  c1_advance_failure_does_not_stop_walk c1WitEnv 3 3 1 rfl (by decide)
    (by decide) rfl rfl
